import Mathlib

/-!
Verification of the ralph-plans goal lifecycle engine.

This file gives a shallow embedding of the core of the ralph-plans service:
the transition graph (transitions.go), the SQLite-backed store (db.go) and
the HTTP handlers (handlers.go).  The store is modelled as an explicit state
record holding the four tables (goals, goal_transitions, goal_comments,
goal_dependencies); SQL statements become pure functions on that state, and
the `CHECK` constraint on the status column of the goals table is modelled
as a guard on the UPDATE/INSERT paths, exactly as SQLite enforces it.
Timestamps are modelled as an abstract `Nat` clock passed to each operation.

Handlers that read the goal row and then perform the compare-and-swap update
take two state arguments, `stRead` (the database at the time of the initial
read) and `stCas` (the database at the time of the CAS), so that the
interleaving in which another serialized writer commits between the two
accesses is expressible.  Sequential executions instantiate both with the
same state.
-/

namespace RalphPlans

/-! ## Transition graph (transitions.go) -/

/-- The status values admitted by the goals table CHECK constraint
(db.go, `migrate`). -/
def allowedStatuses : List String :=
  ["draft", "queued", "running", "done", "stuck", "cancelled"]

/-- The CHECK constraint on the status column: SQLite rejects an INSERT or
UPDATE that would store any other value. -/
def statusCheck (s : String) : Bool :=
  allowedStatuses.contains s

/-- The declared transition graph `validTransitions` (transitions.go). -/
def validTransitions : List (String × List String) :=
  [("draft",   ["queued", "cancelled"]),
   ("queued",  ["running", "cancelled"]),
   ("running", ["done", "stuck", "cancelled"]),
   ("stuck",   ["queued", "cancelled"])]

/-- `canTransition` (transitions.go): membership test in the declared graph. -/
def canTransition (fr t : String) : Bool :=
  match validTransitions.find? (fun p => p.1 == fr) with
  | none => false
  | some p => p.2.contains t

/-- `isTerminal` (transitions.go). -/
def isTerminal (s : String) : Bool :=
  s == "done" || s == "cancelled"

/-! ## Data model (db.go) -/

/-- A row of the goals table. -/
structure GoalRow where
  id : Int
  org : String
  repo : String
  title : String
  body : String
  status : String
  retries : Int
  model : Option String
  reasoning : Option String
  createdAt : Nat
  updatedAt : Nat
deriving DecidableEq, Repr

/-- A row of the goal_transitions audit table. -/
structure TransitionRow where
  goalId : Int
  fromStatus : Option String
  toStatus : String
  createdAt : Nat
deriving DecidableEq, Repr

/-- A row of the goal_comments table. -/
structure CommentRow where
  id : Int
  goalId : Int
  body : String
  createdAt : Nat
deriving DecidableEq, Repr

/-- A row of the goal_dependencies table: the ordered pair
(goal, prerequisite), which is the table's primary key. -/
structure DepRow where
  goalId : Int
  dependsOnId : Int
deriving DecidableEq, Repr

/-- The four tables owned by the store. -/
structure DBState where
  goals : List GoalRow
  transitions : List TransitionRow
  comments : List CommentRow
  deps : List DepRow
deriving DecidableEq, Repr

/-- Errors surfaced by the store primitives: `noRows` models
`sql.ErrNoRows`, the others model SQLite constraint failures. -/
inductive DBErr where
  | noRows
  | checkFailed
  | constraintFailed
deriving DecidableEq, Repr

instance : DecidableEq (Except DBErr Unit) := fun a b =>
  match a, b with
  | .ok (), .ok () => isTrue rfl
  | .ok (), .error _ => isFalse (fun h => Except.noConfusion h)
  | .error _, .ok () => isFalse (fun h => Except.noConfusion h)
  | .error x, .error y =>
      if h : x = y then isTrue (by rw [h]) else
        isFalse (fun hc => h (by injection hc))

/-- The ids of the goals table form a primary key: no two rows share one. -/
def idsNodup (st : DBState) : Prop :=
  (st.goals.map GoalRow.id).Nodup

instance (st : DBState) : Decidable (idsNodup st) :=
  inferInstanceAs (Decidable ((st.goals.map GoalRow.id).Nodup))

/-- Every status stored in the goals table is a declared one. -/
def statusOK (st : DBState) : Bool :=
  st.goals.all (fun g => statusCheck g.status)

/-! ## Store primitives (db.go) -/

/-- `getGoal` (db.go): SELECT the row with the given id. -/
def getGoal (st : DBState) (id : Int) : Option GoalRow :=
  st.goals.find? (fun g => g.id == id)

/-- AUTOINCREMENT: goals are never deleted, so one more than the maximum
id ever used is one more than the current maximum. -/
def nextGoalId (st : DBState) : Int :=
  (st.goals.map GoalRow.id).foldr max 0 + 1

/-- `createGoal` (db.go): INSERT a new goal; the status column takes its
DEFAULT value 'draft'. -/
def createGoal (st : DBState) (org repo title body : String)
    (model reasoning : Option String) (now : Nat) : DBState × Int :=
  let gid := nextGoalId st
  ({ st with goals := st.goals ++
      [{ id := gid, org := org, repo := repo, title := title, body := body,
         status := "draft", retries := 0, model := model,
         reasoning := reasoning, createdAt := now, updatedAt := now }] }, gid)

/-- `updateGoalStatus` (db.go): one transaction performing the
compare-and-swap UPDATE (guarded by the status CHECK constraint) and, when
the UPDATE affected a row, the audit INSERT.  On any error the deferred
rollback leaves the database unchanged, so the input state is returned. -/
def updateGoalStatus (st : DBState) (id : Int) (fr t : String) (now : Nat) :
    Except DBErr Unit × DBState :=
  let matchedCount := (st.goals.filter (fun g => g.id == id && g.status == fr)).length
  if matchedCount != 0 && !statusCheck t then
    (.error .checkFailed, st)
  else if matchedCount == 0 then
    (.error .noRows, st)
  else
    (.ok (), { st with
      goals := st.goals.map (fun g =>
        if g.id == id && g.status == fr then
          { g with status := t, updatedAt := now }
        else g),
      transitions := st.transitions ++
        [{ goalId := id, fromStatus := some fr, toStatus := t, createdAt := now }] })

/-- `createComment` (db.go): INSERT a comment row. -/
def createComment (st : DBState) (goalID : Int) (body : String) (now : Nat) :
    DBState × Int :=
  let cid := (st.comments.map CommentRow.id).foldr max 0 + 1
  ({ st with comments := st.comments ++
      [{ id := cid, goalId := goalID, body := body, createdAt := now }] }, cid)

/-- `listComments` (db.go): SELECT comments of a goal ORDER BY id.  Comment
ids are assigned in insertion order, so the stored order is already the id
order. -/
def listComments (st : DBState) (goalID : Int) : List CommentRow :=
  st.comments.filter (fun c => c.goalId == goalID)

/-- `addDependency` (db.go): INSERT the edge; the (goal_id, depends_on_id)
primary key makes a duplicate INSERT fail, and the foreign keys require
both endpoints to exist. -/
def addDependency (st : DBState) (goalID dependsOnID : Int) :
    Except DBErr Unit × DBState :=
  if st.deps.any (fun d => d.goalId == goalID && d.dependsOnId == dependsOnID) then
    (.error .constraintFailed, st)
  else if (getGoal st goalID).isNone || (getGoal st dependsOnID).isNone then
    (.error .constraintFailed, st)
  else
    (.ok (), { st with deps := st.deps ++ [{ goalId := goalID, dependsOnId := dependsOnID }] })

/-- `removeDependency` (db.go): DELETE the edge; zero affected rows is
reported as `sql.ErrNoRows`. -/
def removeDependency (st : DBState) (goalID dependsOnID : Int) :
    Except DBErr Unit × DBState :=
  let remaining := st.deps.filter (fun d => !(d.goalId == goalID && d.dependsOnId == dependsOnID))
  if st.deps.length - remaining.length == 0 then
    (.error .noRows, st)
  else
    (.ok (), { st with deps := remaining })

/-- `listDependencies` (db.go): prerequisite ids of a goal ORDER BY
depends_on_id. -/
def listDependencies (st : DBState) (goalID : Int) : List Int :=
  ((st.deps.filter (fun d => d.goalId == goalID)).map DepRow.dependsOnId).insertionSort (· ≤ ·)

/-- The COUNT computed by `hasUnmetDependencies` (db.go): the JOIN of the
edges of `goalID` with the goals table, keeping prerequisites whose status
is not 'done', produces one row per matching (edge, goal) pair. -/
def unmetCount (st : DBState) (goalID : Int) : Nat :=
  ((st.deps.filter (fun d => d.goalId == goalID)).map
    (fun d => (st.goals.filter (fun g => g.id == d.dependsOnId && g.status != "done")).length)).sum

/-- `hasUnmetDependencies` (db.go): `count > 0`. -/
def hasUnmetDependencies (st : DBState) (goalID : Int) : Bool :=
  decide (0 < unmetCount st goalID)

/-! ## Listing and pagination (db.go `listGoals`) -/

/-- A row of the summary SELECT used by `listGoals`. -/
structure GoalSummary where
  id : Int
  org : String
  repo : String
  title : String
  status : String
  model : Option String
  reasoning : Option String
deriving DecidableEq, Repr

/-- Projection of a goals row to its listing summary. -/
def toSummary (g : GoalRow) : GoalSummary :=
  { id := g.id, org := g.org, repo := g.repo, title := g.title,
    status := g.status, model := g.model, reasoning := g.reasoning }

/-- The WHERE clause built by `listGoals`: each of the three filters is
applied only when non-empty, ANDed. -/
def goalFilter (status org repo : String) (g : GoalRow) : Bool :=
  (status == "" || g.status == status) &&
  (org == "" || g.org == org) &&
  (repo == "" || g.repo == repo)

/-- ORDER BY id DESC. -/
def byIdDesc (a b : GoalRow) : Prop := b.id ≤ a.id

instance : DecidableRel byIdDesc := fun a b => Int.decLe b.id a.id

instance : IsTotal GoalRow byIdDesc := ⟨fun a b => Int.le_total b.id a.id⟩

instance : IsTrans GoalRow byIdDesc := ⟨fun _ _ _ h h' => le_trans h' h⟩

/-- `listGoals` (db.go): filter, count the filtered set when pagination is
requested (`limit > 0`), order by descending id, and apply LIMIT/OFFSET
only when pagination is requested. -/
def listGoals (st : DBState) (status org repo : String) (limit offset : Nat) :
    List GoalSummary × Nat :=
  let filtered := st.goals.filter (goalFilter status org repo)
  let total := if 0 < limit then filtered.length else 0
  let sorted := filtered.insertionSort byIdDesc
  let items := if 0 < limit then (sorted.drop offset).take limit else sorted
  (items.map toSummary, total)

/-! ## HTTP handlers (handlers.go) -/

/-- The envelope a handler writes: HTTP status code, the `ok` flag, and the
`error` reason string (`""` on success). -/
structure HResp where
  code : Nat
  ok : Bool
  msg : String
deriving DecidableEq, Repr

/-- `writeErr` (handlers.go). -/
def errResp (code : Nat) (msg : String) : HResp :=
  { code := code, ok := false, msg := msg }

/-- A success envelope with the given HTTP code. -/
def okResp (code : Nat) : HResp :=
  { code := code, ok := true, msg := "" }

/-- `transitionHandler` (handlers.go): read the goal (`stRead`), require its
status to equal the hardwired `fr`, then CAS it to `t` (`stCas`); any error
from `updateGoalStatus`, including the lost race (`sql.ErrNoRows`), is
reported as a 500. -/
def transitionHandler (fr t : String) (stRead stCas : DBState) (id : Int) (now : Nat) :
    HResp × DBState :=
  match getGoal stRead id with
  | none => (errResp 404 "goal not found", stCas)
  | some g =>
    if g.status != fr then
      (errResp 409 ("cannot transition from " ++ g.status ++ " to " ++ t), stCas)
    else
      match updateGoalStatus stCas id fr t now with
      | (.error _, st') => (errResp 500 "failed to update status", st')
      | (.ok _, st') => (okResp 200, st')

/-- `handleStart` (handlers.go): like `transitionHandler "queued" "running"`
but with the dependency gate between the status check and the CAS. -/
def handleStart (stRead stCas : DBState) (id : Int) (now : Nat) : HResp × DBState :=
  match getGoal stRead id with
  | none => (errResp 404 "goal not found", stCas)
  | some g =>
    if g.status != "queued" then
      (errResp 409 ("cannot transition from " ++ g.status ++ " to running"), stCas)
    else if hasUnmetDependencies stRead id then
      (errResp 409 "goal has unmet dependencies", stCas)
    else
      match updateGoalStatus stCas id "queued" "running" now with
      | (.error _, st') => (errResp 500 "failed to update status", st')
      | (.ok _, st') => (okResp 200, st')

/-- `handleCancel` (handlers.go): any non-terminal current status is the
implicit CAS "from"; a terminal current status is a 409. -/
def handleCancel (stRead stCas : DBState) (id : Int) (now : Nat) : HResp × DBState :=
  match getGoal stRead id with
  | none => (errResp 404 "goal not found", stCas)
  | some g =>
    if isTerminal g.status then
      (errResp 409 ("goal is already " ++ g.status), stCas)
    else
      match updateGoalStatus stCas id g.status "cancelled" now with
      | (.error _, st') => (errResp 500 "failed to update status", st')
      | (.ok _, st') => (okResp 200, st')

/-- `handleCreateGoal` (handlers.go): validate the text fields and the two
optional hint enumerations, then INSERT a goal in 'draft'. -/
def handleCreateGoal (st : DBState) (org repo title body : String)
    (model reasoning : Option String) (now : Nat) : HResp × DBState :=
  if org == "" || repo == "" || title == "" || body == "" then
    (errResp 400 "org, repo, title, and body are required", st)
  else if (match model with
           | some m => !(["haiku", "sonnet", "opus"].contains m)
           | none => false) then
    (errResp 400 "model must be one of: haiku, sonnet, opus", st)
  else if (match reasoning with
           | some r => !(["none", "low", "med", "high"].contains r)
           | none => false) then
    (errResp 400 "reasoning must be one of: none, low, med, high", st)
  else
    (okResp 201, (createGoal st org repo title body model reasoning now).1)

/-- `handleCreateComment` (handlers.go): verify the goal exists, require a
non-empty body, then INSERT. -/
def handleCreateComment (st : DBState) (id : Int) (body : String) (now : Nat) :
    HResp × DBState :=
  match getGoal st id with
  | none => (errResp 404 "goal not found", st)
  | some _ =>
    if body == "" then (errResp 400 "body is required", st)
    else (okResp 201, (createComment st id body now).1)

/-- `handleListComments` (handlers.go): no existence check on the goal; the
stored comments of the id (possibly none) are returned with a 200. -/
def handleListComments (st : DBState) (id : Int) : HResp × List CommentRow :=
  (okResp 200, listComments st id)

/-- `dependencyAllowedStatuses` (handlers.go). -/
def dependencyAllowedStatuses : List String :=
  ["draft", "queued", "stuck"]

/-- `handleAddDependency` (handlers.go): existence and status checks, the
self-loop and zero-id rejections, then the INSERT; any INSERT error
(including the duplicate-edge primary-key failure) is reported as a 500. -/
def handleAddDependency (st : DBState) (id depId : Int) : HResp × DBState :=
  match getGoal st id with
  | none => (errResp 404 "goal not found", st)
  | some g =>
    if !dependencyAllowedStatuses.contains g.status then
      (errResp 409 ("cannot modify dependencies when goal is " ++ g.status), st)
    else if depId == 0 then
      (errResp 400 "depends_on_id is required", st)
    else if depId == id then
      (errResp 400 "goal cannot depend on itself", st)
    else
      match getGoal st depId with
      | none => (errResp 404 "dependency goal not found", st)
      | some _ =>
        match addDependency st id depId with
        | (.error _, st') => (errResp 500 "failed to add dependency", st')
        | (.ok _, st') => (okResp 201, st')

/-- `handleRemoveDependency` (handlers.go): `sql.ErrNoRows` from the DELETE
maps to a 404, other errors to a 500. -/
def handleRemoveDependency (st : DBState) (id depId : Int) : HResp × DBState :=
  match getGoal st id with
  | none => (errResp 404 "goal not found", st)
  | some g =>
    if !dependencyAllowedStatuses.contains g.status then
      (errResp 409 ("cannot modify dependencies when goal is " ++ g.status), st)
    else
      match removeDependency st id depId with
      | (.error .noRows, st') => (errResp 404 "dependency not found", st')
      | (.error _, st') => (errResp 500 "failed to remove dependency", st')
      | (.ok _, st') => (okResp 200, st')

/-- The response of `handleListGoals` in its paginated mode. -/
structure ListResp where
  code : Nat
  ok : Bool
  items : List GoalSummary
  page : Nat
  perPage : Nat
  total : Nat
deriving DecidableEq, Repr

/-- `handleListGoals` (handlers.go), paginated mode (`page` supplied):
`page` and `per_page` must parse positive, `per_page` defaults to 20 and is
clamped to 100, and the limit/offset pair is `perPage`/`(page-1)*perPage`. -/
def handleListGoals (st : DBState) (status org repo : String)
    (page : Nat) (perPageReq : Option Nat) : ListResp :=
  if page == 0 then
    { code := 400, ok := false, items := [], page := 0, perPage := 0, total := 0 }
  else
    let perPage0 := match perPageReq with | none => 20 | some p => p
    if perPage0 == 0 then
      { code := 400, ok := false, items := [], page := 0, perPage := 0, total := 0 }
    else
      let perPage := if perPage0 > 100 then 100 else perPage0
      let r := listGoals st status org repo perPage ((page - 1) * perPage)
      { code := 200, ok := true, items := r.1, page := page, perPage := perPage,
        total := r.2 }

/-! ## The transition endpoints as a family -/

/-- The six status-changing endpoints registered in `registerRoutes`
(handlers.go): /queue, /start, /submitted, /stuck, /requeue, /cancel. -/
inductive Endpoint where
  | queue
  | start
  | submitted
  | stuck
  | requeue
  | cancel
deriving DecidableEq, Repr

/-- The status each endpoint attempts to move the goal to. -/
def endpointTarget : Endpoint → String
  | .queue => "queued"
  | .start => "running"
  | .submitted => "submitted"
  | .stuck => "stuck"
  | .requeue => "queued"
  | .cancel => "cancelled"

/-- Dispatch an endpoint sequentially (read and CAS see the same state). -/
def runEndpoint (e : Endpoint) (st : DBState) (id : Int) (now : Nat) :
    HResp × DBState :=
  match e with
  | .queue => transitionHandler "draft" "queued" st st id now
  | .start => handleStart st st id now
  | .submitted => transitionHandler "running" "submitted" st st id now
  | .stuck => transitionHandler "running" "stuck" st st id now
  | .requeue => transitionHandler "stuck" "queued" st st id now
  | .cancel => handleCancel st st id now

/-- All six registered transition endpoints. -/
def allEndpoints : List Endpoint :=
  [.queue, .start, .submitted, .stuck, .requeue, .cancel]

/-- Some registered endpoint moves the goal to status `t` and reports
success. -/
def transitionSucceedsTo (st : DBState) (id : Int) (t : String) (now : Nat) : Bool :=
  allEndpoints.any (fun e => endpointTarget e == t && (runEndpoint e st id now).1.ok)

/-! ## All state-mutating operations, for the status invariant -/

/-- Every modelled operation that can write to the database. -/
inductive Op where
  | create (org repo title body : String) (model reasoning : Option String)
  | endpoint (e : Endpoint) (id : Int)
  | comment (id : Int) (body : String)
  | addDep (id depId : Int)
  | removeDep (id depId : Int)

/-- The database state after running an operation. -/
def applyOp (st : DBState) (now : Nat) : Op → DBState
  | .create org repo title body model reasoning =>
      (handleCreateGoal st org repo title body model reasoning now).2
  | .endpoint e id => (runEndpoint e st id now).2
  | .comment id body => (handleCreateComment st id body now).2
  | .addDep id depId => (handleAddDependency st id depId).2
  | .removeDep id depId => (handleRemoveDependency st id depId).2

/-! ## Sample database states used in witnesses and counterexamples -/

/-- A goal in the initial state. -/
def gDraft : GoalRow :=
  { id := 1, org := "acme", repo := "app", title := "t", body := "b",
    status := "draft", retries := 0, model := none, reasoning := none,
    createdAt := 0, updatedAt := 0 }

/-- The same goal in other statuses, and a second goal. -/
def gQueued : GoalRow := { gDraft with status := "queued" }

def gRunning : GoalRow := { gDraft with status := "running" }

def gDone : GoalRow := { gDraft with status := "done" }

def gCancelled : GoalRow := { gDraft with status := "cancelled" }

def gDraft2 : GoalRow := { gDraft with id := 2 }

def stEmpty : DBState := { goals := [], transitions := [], comments := [], deps := [] }

def stDraft1 : DBState := { stEmpty with goals := [gDraft] }

def stQueued1 : DBState := { stEmpty with goals := [gQueued] }

def stRunning1 : DBState := { stEmpty with goals := [gRunning] }

def stDone1 : DBState := { stEmpty with goals := [gDone] }

def stCancelled1 : DBState := { stEmpty with goals := [gCancelled] }

/-- Goals 1 and 2 with the dependency edge (1, 2) already present. -/
def stDup : DBState :=
  { stEmpty with goals := [gDraft, gDraft2], deps := [{ goalId := 1, dependsOnId := 2 }] }

/-- Three draft goals, for the pagination witness. -/
def stThree : DBState :=
  { stEmpty with goals := [gDraft, gDraft2, { gDraft with id := 3 }] }

/-- A filler goal whose fields match every empty filter. -/
def fillerGoal (i : Nat) : GoalRow :=
  { id := (i : Int), org := "", repo := "", title := "", body := "",
    status := "draft", retries := 0, model := none, reasoning := none,
    createdAt := 0, updatedAt := 0 }

/-- 101 goals, for the pagination counterexample. -/
def stMany : DBState := { stEmpty with goals := (List.range 101).map fillerGoal }

/-! ## Helper lemmas about uniqueness of goal ids -/

theorem length_le_one_of_nodup_const {l : List Int} {v : Int} (hnd : l.Nodup)
    (h : ∀ x ∈ l, x = v) : l.length ≤ 1 := by
  match l with
  | [] => simp
  | [a] => simp
  | a :: b :: tl =>
    exfalso
    rw [List.nodup_cons] at hnd
    exact hnd.1 (by rw [h a (by simp), h b (by simp)]; exact List.mem_cons_self ..)

theorem find?_eq_of_nodup_ids {l : List GoalRow} (hnd : (l.map GoalRow.id).Nodup)
    {g : GoalRow} (hg : g ∈ l) (p : GoalRow → Bool)
    (hp : ∀ x, p x = true → x.id = g.id) :
    l.find? p = if p g then some g else none := by
  induction l with
  | nil => cases hg
  | cons a tl ih =>
    rw [List.map_cons, List.nodup_cons] at hnd
    obtain ⟨ha, hnd'⟩ := hnd
    rcases List.mem_cons.mp hg with rfl | hgtl
    · have htl : tl.find? p = none := by
        rw [List.find?_eq_none]
        intro x hx hpx
        exact ha (hp x hpx ▸ List.mem_map_of_mem GoalRow.id hx)
      by_cases hpa : p g = true
      · simp [List.find?_cons, hpa]
      · rw [List.find?_cons, Bool.eq_false_iff.mpr hpa, htl]
        simp
    · have hpa : p a = false := by
        rcases Bool.eq_false_or_eq_true (p a) with h | h
        · exact absurd ((hp a h).symm ▸ List.mem_map_of_mem GoalRow.id hgtl) ha
        · exact h
      rw [List.find?_cons, hpa]
      exact ih hnd' hgtl

theorem filter_eq_of_nodup_ids {l : List GoalRow} (hnd : (l.map GoalRow.id).Nodup)
    {g : GoalRow} (hg : g ∈ l) (p : GoalRow → Bool)
    (hp : ∀ x, p x = true → x.id = g.id) :
    l.filter p = if p g then [g] else [] := by
  induction l with
  | nil => cases hg
  | cons a tl ih =>
    rw [List.map_cons, List.nodup_cons] at hnd
    obtain ⟨ha, hnd'⟩ := hnd
    rcases List.mem_cons.mp hg with rfl | hgtl
    · have htl : tl.filter p = [] := by
        rw [List.filter_eq_nil_iff]
        intro x hx hpx
        exact ha (hp x hpx ▸ List.mem_map_of_mem GoalRow.id hx)
      by_cases hpa : p g = true
      · simp [List.filter_cons, hpa, htl]
      · rw [List.filter_cons, if_neg (by simpa using hpa), htl, if_neg hpa]
    · have hpa : p a = false := by
        rcases Bool.eq_false_or_eq_true (p a) with h | h
        · exact absurd ((hp a h).symm ▸ List.mem_map_of_mem GoalRow.id hgtl) ha
        · exact h
      rw [List.filter_cons, if_neg (by simp [hpa])]
      exact ih hnd' hgtl

theorem eq_of_mem_of_same_id {l : List GoalRow} (hnd : (l.map GoalRow.id).Nodup)
    {g x : GoalRow} (hg : g ∈ l) (hx : x ∈ l) (h : x.id = g.id) : x = g := by
  induction l with
  | nil => cases hg
  | cons a tl ih =>
    rw [List.map_cons, List.nodup_cons] at hnd
    obtain ⟨ha, hnd'⟩ := hnd
    rcases List.mem_cons.mp hg with rfl | hgtl <;>
      rcases List.mem_cons.mp hx with rfl | hxtl
    · rfl
    · exact absurd (h ▸ List.mem_map_of_mem GoalRow.id hxtl) ha
    · exact absurd (h.symm ▸ List.mem_map_of_mem GoalRow.id hgtl) ha
    · exact ih hnd' hgtl hxtl

theorem getGoal_eq_some {st : DBState} (hnd : idsNodup st) {g : GoalRow}
    (hg : g ∈ st.goals) : getGoal st g.id = some g := by
  unfold getGoal
  rw [find?_eq_of_nodup_ids hnd hg (fun x => x.id == g.id)
    (fun x hx => by simpa using hx)]
  simp

theorem getGoal_mem {st : DBState} {id : Int} {g : GoalRow}
    (h : getGoal st id = some g) : g ∈ st.goals ∧ g.id = id := by
  unfold getGoal at h
  refine ⟨List.mem_of_find?_eq_some h, ?_⟩
  simpa using List.find?_some h

theorem getGoal_none {st : DBState} {id : Int} (h : getGoal st id = none) :
    ∀ g ∈ st.goals, g.id ≠ id := by
  unfold getGoal at h
  rw [List.find?_eq_none] at h
  intro g hg
  simpa using h g hg

theorem matched_filter_eq {st : DBState} (hnd : idsNodup st) {g : GoalRow}
    (hg : g ∈ st.goals) (fr : String) :
    st.goals.filter (fun x => x.id == g.id && x.status == fr)
      = if g.status == fr then [g] else [] := by
  have h := filter_eq_of_nodup_ids hnd hg (fun x => x.id == g.id && x.status == fr)
    (fun x hx => by
      have := (Bool.and_eq_true ..).mp hx
      simpa using this.1)
  rw [h]
  by_cases hs : (g.status == fr) = true
  · rw [if_pos (by simp [hs]), if_pos hs]
  · rw [if_neg (by simp [hs]), if_neg hs]

theorem matched_length_le_one {st : DBState} (hnd : idsNodup st) (id : Int) (fr : String) :
    (st.goals.filter (fun g => g.id == id && g.status == fr)).length ≤ 1 := by
  have hsub : List.Sublist
      ((st.goals.filter (fun g => g.id == id && g.status == fr)).map GoalRow.id)
      (st.goals.map GoalRow.id) :=
    (List.filter_sublist _).map _
  have hndf := hnd.sublist hsub
  have hall : ∀ x ∈ (st.goals.filter (fun g => g.id == id && g.status == fr)).map GoalRow.id,
      x = id := by
    intro x hx
    rcases List.mem_map.mp hx with ⟨g, hgmem, rfl⟩
    have h2 := (List.mem_filter.mp hgmem).2
    have := (Bool.and_eq_true ..).mp h2
    simpa using this.1
  simpa using length_le_one_of_nodup_const hndf hall

/-! ## Characterization of the CAS primitive -/

theorem updateGoalStatus_spec (st : DBState) (id : Int) (fr t : String) (now : Nat) :
    (updateGoalStatus st id fr t now
        = (.ok (), { st with
            goals := st.goals.map (fun g =>
              if g.id == id && g.status == fr then
                { g with status := t, updatedAt := now }
              else g),
            transitions := st.transitions ++
              [{ goalId := id, fromStatus := some fr, toStatus := t, createdAt := now }] })
      ∧ (st.goals.filter (fun g => g.id == id && g.status == fr)).length ≠ 0
      ∧ statusCheck t = true)
    ∨ (updateGoalStatus st id fr t now = (.error .noRows, st)
      ∧ (st.goals.filter (fun g => g.id == id && g.status == fr)).length = 0)
    ∨ (updateGoalStatus st id fr t now = (.error .checkFailed, st)
      ∧ statusCheck t = false
      ∧ (st.goals.filter (fun g => g.id == id && g.status == fr)).length ≠ 0) := by
  by_cases h1 : ((st.goals.filter (fun g => g.id == id && g.status == fr)).length != 0
      && !statusCheck t) = true
  · right; right
    have h1' := h1
    rw [Bool.and_eq_true, bne_iff_ne, Bool.not_eq_true'] at h1'
    refine ⟨?_, h1'.2, h1'.1⟩
    simp only [updateGoalStatus]
    rw [if_pos h1]
  · by_cases h2 : ((st.goals.filter (fun g => g.id == id && g.status == fr)).length == 0) = true
    · right; left
      have h2' : (st.goals.filter (fun g => g.id == id && g.status == fr)).length = 0 := by
        simpa using h2
      refine ⟨?_, h2'⟩
      simp only [updateGoalStatus]
      rw [if_neg h1, if_pos h2]
    · left
      have h2' : (st.goals.filter (fun g => g.id == id && g.status == fr)).length ≠ 0 := by
        simpa using h2
      have hck : statusCheck t = true := by
        rw [Bool.and_eq_true, bne_iff_ne, Bool.not_eq_true'] at h1
        rcases not_and_or.mp h1 with h | h
        · exact absurd h2' h
        · simpa using h
      refine ⟨?_, h2', hck⟩
      simp only [updateGoalStatus]
      rw [if_neg h1, if_neg h2]

/-! ## Preservation of the status CHECK constraint -/

theorem statusOK_iff {st : DBState} :
    statusOK st = true ↔ ∀ g ∈ st.goals, statusCheck g.status = true := by
  simp [statusOK, List.all_eq_true]

theorem statusOK_of_goals_eq {st st' : DBState} (h : st'.goals = st.goals)
    (hok : statusOK st = true) : statusOK st' = true := by
  unfold statusOK at hok ⊢
  rw [h]
  exact hok

theorem statusOK_updateGoalStatus {st : DBState} {id : Int} {fr t : String} {now : Nat}
    (h : statusOK st = true) :
    statusOK (updateGoalStatus st id fr t now).2 = true := by
  rcases updateGoalStatus_spec st id fr t now with ⟨heq, _, hck⟩ | ⟨heq, _⟩ | ⟨heq, _, _⟩
  · rw [heq]
    rw [statusOK_iff] at h ⊢
    intro g hg
    dsimp at hg
    rcases List.mem_map.mp hg with ⟨x, hx, rfl⟩
    by_cases hc : (x.id == id && x.status == fr) = true
    · rw [if_pos hc]
      exact hck
    · rw [if_neg hc]
      exact h x hx
  · rw [heq]; exact h
  · rw [heq]; exact h

theorem statusOK_transitionHandler {fr t : String} {stRead stCas : DBState}
    {id : Int} {now : Nat} (h : statusOK stCas = true) :
    statusOK (transitionHandler fr t stRead stCas id now).2 = true := by
  unfold transitionHandler
  cases hg : getGoal stRead id with
  | none => exact h
  | some g =>
    dsimp only
    by_cases hs : (g.status != fr) = true
    · rw [if_pos hs]
      exact h
    · rw [if_neg hs]
      rcases hu : updateGoalStatus stCas id fr t now with ⟨r, st'⟩
      have h2 : statusOK st' = true := by
        have h3 := @statusOK_updateGoalStatus stCas id fr t now h
        rw [hu] at h3
        exact h3
      cases r <;> exact h2

theorem statusOK_handleStart {stRead stCas : DBState} {id : Int} {now : Nat}
    (h : statusOK stCas = true) :
    statusOK (handleStart stRead stCas id now).2 = true := by
  unfold handleStart
  cases hg : getGoal stRead id with
  | none => exact h
  | some g =>
    dsimp only
    by_cases hs : (g.status != "queued") = true
    · rw [if_pos hs]
      exact h
    · rw [if_neg hs]
      by_cases hd : hasUnmetDependencies stRead id = true
      · rw [if_pos hd]
        exact h
      · rw [if_neg hd]
        rcases hu : updateGoalStatus stCas id "queued" "running" now with ⟨r, st'⟩
        have h2 : statusOK st' = true := by
          have h3 := @statusOK_updateGoalStatus stCas id "queued" "running" now h
          rw [hu] at h3
          exact h3
        cases r <;> exact h2

theorem statusOK_handleCancel {stRead stCas : DBState} {id : Int} {now : Nat}
    (h : statusOK stCas = true) :
    statusOK (handleCancel stRead stCas id now).2 = true := by
  unfold handleCancel
  cases hg : getGoal stRead id with
  | none => exact h
  | some g =>
    dsimp only
    by_cases hs : isTerminal g.status = true
    · rw [if_pos hs]
      exact h
    · rw [if_neg hs]
      rcases hu : updateGoalStatus stCas id g.status "cancelled" now with ⟨r, st'⟩
      have h2 : statusOK st' = true := by
        have h3 := @statusOK_updateGoalStatus stCas id g.status "cancelled" now h
        rw [hu] at h3
        exact h3
      cases r <;> exact h2

theorem statusOK_handleCreateGoal {st : DBState} {org repo title body : String}
    {model reasoning : Option String} {now : Nat} (h : statusOK st = true) :
    statusOK (handleCreateGoal st org repo title body model reasoning now).2 = true := by
  unfold handleCreateGoal
  by_cases h1 : (org == "" || repo == "" || title == "" || body == "") = true
  · rw [if_pos h1]; exact h
  · rw [if_neg h1]
    by_cases h2 : (match model with
        | some m => !(["haiku", "sonnet", "opus"].contains m)
        | none => false) = true
    · rw [if_pos h2]; exact h
    · rw [if_neg h2]
      by_cases h3 : (match reasoning with
          | some r => !(["none", "low", "med", "high"].contains r)
          | none => false) = true
      · rw [if_pos h3]; exact h
      · rw [if_neg h3]
        dsimp [createGoal]
        rw [statusOK_iff] at h ⊢
        intro g hg
        rcases List.mem_append.mp hg with hmem | hmem
        · exact h g hmem
        · have : g.status = "draft" := by
            rcases List.mem_singleton.mp hmem with rfl
            rfl
          rw [this]
          rfl

theorem addDependency_goals (st : DBState) (a b : Int) :
    (addDependency st a b).2.goals = st.goals := by
  unfold addDependency
  split
  · rfl
  · split <;> rfl

theorem removeDependency_goals (st : DBState) (a b : Int) :
    (removeDependency st a b).2.goals = st.goals := by
  simp only [removeDependency]
  split <;> rfl

theorem statusOK_handleCreateComment {st : DBState} {id : Int} {body : String}
    {now : Nat} (h : statusOK st = true) :
    statusOK (handleCreateComment st id body now).2 = true := by
  unfold handleCreateComment
  cases hg : getGoal st id with
  | none => exact h
  | some g =>
    dsimp only
    by_cases hb : (body == "") = true
    · rw [if_pos hb]
      exact h
    · rw [if_neg hb]
      exact statusOK_of_goals_eq rfl h

theorem statusOK_handleAddDependency {st : DBState} {id depId : Int}
    (h : statusOK st = true) :
    statusOK (handleAddDependency st id depId).2 = true := by
  unfold handleAddDependency
  cases hg : getGoal st id with
  | none => exact h
  | some g =>
    dsimp only
    by_cases h1 : (!dependencyAllowedStatuses.contains g.status) = true
    · rw [if_pos h1]; exact h
    · rw [if_neg h1]
      by_cases h2 : (depId == 0) = true
      · rw [if_pos h2]; exact h
      · rw [if_neg h2]
        by_cases h3 : (depId == id) = true
        · rw [if_pos h3]; exact h
        · rw [if_neg h3]
          cases hdep : getGoal st depId with
          | none => exact h
          | some g2 =>
            dsimp only
            rcases hu : addDependency st id depId with ⟨r, st'⟩
            have hgoals : st'.goals = st.goals := by
              have := addDependency_goals st id depId
              rw [hu] at this
              exact this
            cases r <;> exact statusOK_of_goals_eq hgoals h

theorem statusOK_handleRemoveDependency {st : DBState} {id depId : Int}
    (h : statusOK st = true) :
    statusOK (handleRemoveDependency st id depId).2 = true := by
  unfold handleRemoveDependency
  cases hg : getGoal st id with
  | none => exact h
  | some g =>
    dsimp only
    by_cases h1 : (!dependencyAllowedStatuses.contains g.status) = true
    · rw [if_pos h1]; exact h
    · rw [if_neg h1]
      rcases hu : removeDependency st id depId with ⟨r, st'⟩
      have hgoals : st'.goals = st.goals := by
        have := removeDependency_goals st id depId
        rw [hu] at this
        exact this
      cases r with
      | ok _ => exact statusOK_of_goals_eq hgoals h
      | error e => cases e <;> exact statusOK_of_goals_eq hgoals h

/-- Claim C3: for every modelled operation of the service (goal creation,
the six transition endpoints including the /submitted one, comment
creation, dependency insertion and deletion) and every database state whose
goals all carry a declared status, the state after the operation still
carries only the six declared statuses draft, queued, running, done, stuck,
cancelled: the goals table CHECK constraint makes it impossible for any
operation to persist any other status value. -/
theorem claim_C3 (st : DBState) (now : Nat) (op : Op) (h : statusOK st = true) :
    statusOK (applyOp st now op) = true := by
  cases op with
  | create org repo title body model reasoning => exact statusOK_handleCreateGoal h
  | endpoint e id =>
    cases e with
    | queue => exact statusOK_transitionHandler h
    | start => exact statusOK_handleStart h
    | submitted => exact statusOK_transitionHandler h
    | stuck => exact statusOK_transitionHandler h
    | requeue => exact statusOK_transitionHandler h
    | cancel => exact statusOK_handleCancel h
  | comment id body => exact statusOK_handleCreateComment h
  | addDep id depId => exact statusOK_handleAddDependency h
  | removeDep id depId => exact statusOK_handleRemoveDependency h

theorem claim_C3_witness :
    statusOK stDraft1 = true
    ∧ statusOK (applyOp stDraft1 3 (Op.endpoint Endpoint.queue 1)) = true :=
  ⟨by decide, claim_C3 stDraft1 3 (Op.endpoint Endpoint.queue 1) (by decide)⟩

/-- Claim C2: `updateGoalStatus` is one atomic transaction: assuming the
goals table primary key and a target status accepted by the CHECK
constraint, the call succeeds exactly when one row currently has the given
id and `from` status; on success precisely that row is rewritten to the
`to` status with a refreshed updated timestamp and exactly one transition
record is appended, with comments and dependencies untouched; on any error
(in particular zero affected rows) the returned state is the input state —
no row and no audit record changes. -/
theorem claim_C2 (st : DBState) (id : Int) (fr t : String) (now : Nat)
    (hnd : idsNodup st) (hck : statusCheck t = true) :
    ((updateGoalStatus st id fr t now).1 = Except.ok () ↔
       (st.goals.filter (fun g => g.id == id && g.status == fr)).length = 1)
    ∧ ((updateGoalStatus st id fr t now).1 ≠ Except.ok () →
       (updateGoalStatus st id fr t now).2 = st)
    ∧ ((updateGoalStatus st id fr t now).1 = Except.ok () →
       (updateGoalStatus st id fr t now).2.goals
           = st.goals.map (fun g =>
               if g.id == id && g.status == fr then
                 { g with status := t, updatedAt := now }
               else g)
         ∧ (updateGoalStatus st id fr t now).2.transitions
           = st.transitions ++
               [{ goalId := id, fromStatus := some fr, toStatus := t, createdAt := now }]
         ∧ (updateGoalStatus st id fr t now).2.comments = st.comments
         ∧ (updateGoalStatus st id fr t now).2.deps = st.deps) := by
  have le1 := matched_length_le_one hnd id fr
  rcases updateGoalStatus_spec st id fr t now with ⟨heq, hne, _⟩ | ⟨heq, hz⟩ | ⟨heq, hck', _⟩
  · rw [heq]
    exact ⟨⟨fun _ => by omega, fun _ => rfl⟩,
           fun hne' => absurd rfl hne',
           fun _ => ⟨rfl, rfl, rfl, rfl⟩⟩
  · rw [heq]
    refine ⟨⟨fun hc => absurd hc (by simp), fun hlen => by omega⟩,
            fun _ => rfl,
            fun hc => absurd hc (by simp)⟩
  · rw [hck'] at hck
    cases hck

theorem claim_C2_witness :
    idsNodup stDraft1 ∧ statusCheck "queued" = true
    ∧ ((updateGoalStatus stDraft1 1 "draft" "queued" 5).1 = Except.ok () ↔
        (stDraft1.goals.filter (fun g => g.id == 1 && g.status == "draft")).length = 1) :=
  ⟨by decide, by decide, (claim_C2 stDraft1 1 "draft" "queued" 5 (by decide) (by decide)).1⟩

/-- The CAS primitive succeeds whenever some row matches the (id, from)
pair and the target passes the CHECK, regardless of the transition graph. -/
theorem updateGoalStatus_force {st : DBState} {id : Int} {fr t : String} {now : Nat}
    {g : GoalRow} (hnd : idsNodup st) (hg : g ∈ st.goals) (hid : g.id = id)
    (hst : g.status = fr) (ht : statusCheck t = true) :
    (updateGoalStatus st id fr t now).1 = Except.ok ()
    ∧ (∀ g' ∈ (updateGoalStatus st id fr t now).2.goals, g'.id = id → g'.status = t)
    ∧ (updateGoalStatus st id fr t now).2.transitions
        = st.transitions ++
            [{ goalId := id, fromStatus := some fr, toStatus := t, createdAt := now }] := by
  subst hid
  subst hst
  have hfil : st.goals.filter (fun x => x.id == g.id && x.status == g.status) = [g] := by
    rw [matched_filter_eq hnd hg g.status]
    simp
  rcases updateGoalStatus_spec st g.id g.status t now with ⟨heq, _, _⟩ | ⟨heq, hz⟩ | ⟨heq, hck', _⟩
  · rw [heq]
    refine ⟨rfl, ?_, rfl⟩
    intro g' hg' hid'
    dsimp at hg'
    rcases List.mem_map.mp hg' with ⟨x, hx, rfl⟩
    have hxid : x.id = g.id := by
      by_cases hc : (x.id == g.id && x.status == g.status) = true
      · simpa [hc] using hid'
      · simpa [hc] using hid'
    have hxg : x = g := eq_of_mem_of_same_id hnd hg hx hxid
    subst hxg
    rw [if_pos (by simp)]
  · rw [hfil] at hz
    simp at hz
  · rw [hck'] at ht
    cases ht

/-- Claim C10: the store primitive `updateGoalStatus` performs no legality
check against the transition graph: for any pair of declared statuses,
including pairs that are no edge of the graph and pairs whose `from` is
terminal (such as done → draft), if a goal currently has status `from` then
the call succeeds, sets that goal's status to `to`, and appends the audit
record.  Neither `canTransition` nor `isTerminal` occurs as a hypothesis;
graph legality and terminality live only in the handler layer. -/
theorem claim_C10 (st : DBState) (id : Int) (fr t : String) (now : Nat) (g : GoalRow)
    (hnd : idsNodup st) (hg : g ∈ st.goals) (hid : g.id = id) (hst : g.status = fr)
    (ht : statusCheck t = true) :
    (updateGoalStatus st id fr t now).1 = Except.ok ()
    ∧ (∀ g' ∈ (updateGoalStatus st id fr t now).2.goals, g'.id = id → g'.status = t)
    ∧ (updateGoalStatus st id fr t now).2.transitions
        = st.transitions ++
            [{ goalId := id, fromStatus := some fr, toStatus := t, createdAt := now }] :=
  updateGoalStatus_force hnd hg hid hst ht

theorem claim_C10_witness :
    canTransition "done" "draft" = false ∧ isTerminal "done" = true
    ∧ (updateGoalStatus stDone1 1 "done" "draft" 7).1 = Except.ok () :=
  ⟨by decide, by decide,
    (claim_C10 stDone1 1 "done" "draft" 7 gDone (by decide) (by decide)
      (by decide) (by decide) (by decide)).1⟩

/-- Claim C6: `cancel` succeeds from every non-terminal state, moving the
goal to cancelled and appending one audit record; invoked on a goal in a
terminal state (done or cancelled) it fails with Conflict (HTTP 409)
carrying the reason "goal is already <status>" and leaves the database —
in particular the transition table — unchanged. -/
theorem claim_C6 (st : DBState) (id : Int) (g : GoalRow) (now : Nat)
    (hnd : idsNodup st) (hg : getGoal st id = some g) :
    (isTerminal g.status = true →
       handleCancel st st id now = (errResp 409 ("goal is already " ++ g.status), st))
    ∧ (isTerminal g.status = false →
       (handleCancel st st id now).1 = okResp 200
       ∧ (∀ g' ∈ (handleCancel st st id now).2.goals, g'.id = id → g'.status = "cancelled")
       ∧ (handleCancel st st id now).2.transitions
           = st.transitions ++
               [{ goalId := id, fromStatus := some g.status,
                  toStatus := "cancelled", createdAt := now }]) := by
  obtain ⟨hmem, hid⟩ := getGoal_mem hg
  constructor
  · intro hterm
    unfold handleCancel
    rw [hg]
    dsimp only
    rw [if_pos hterm]
  · intro hterm
    have hforce := @updateGoalStatus_force st id g.status "cancelled" now g
      hnd hmem hid rfl (by decide)
    unfold handleCancel
    rw [hg]
    dsimp only
    rw [if_neg (by rw [hterm]; simp)]
    rcases hu : updateGoalStatus st id g.status "cancelled" now with ⟨r, st'⟩
    rw [hu] at hforce
    have hr : r = Except.ok () := hforce.1
    subst hr
    exact ⟨rfl, hforce.2.1, hforce.2.2⟩

theorem claim_C6_witness :
    getGoal stDone1 1 = some gDone ∧ isTerminal gDone.status = true
    ∧ handleCancel stDone1 stDone1 1 0
        = (errResp 409 ("goal is already " ++ gDone.status), stDone1) :=
  ⟨by decide, by decide, (claim_C6 stDone1 1 gDone 0 (by decide) (by decide)).1 (by decide)⟩

/-- Claim C4 counterexample: a transition request that loses the CAS race
(the read sees the goal queued, but by CAS time another caller has moved it
to cancelled, so zero rows are affected) fails with HTTP 500 "failed to
update status", not with the Conflict category (409), refuting the claim as
stated. -/
theorem claim_C4_counterexample :
    (updateGoalStatus stCancelled1 1 "queued" "running" 0).1 = Except.error DBErr.noRows
    ∧ (handleStart stQueued1 stCancelled1 1 0).1.code = 500
    ∧ (handleStart stQueued1 stCancelled1 1 0).1.code ≠ 409
    ∧ (handleStart stQueued1 stCancelled1 1 0).1.msg = "failed to update status"
    ∧ (transitionHandler "queued" "running" stQueued1 stCancelled1 1 0).1.code = 500 := by
  decide

/-- Claim C4 (amended): when a transition request loses the CAS race — the
compare-and-swap reports zero rows affected because another caller already
moved the goal — both `transitionHandler` and `handleStart` fail with the
internal-error category, HTTP 500 "failed to update status", and leave the
database unchanged; the Conflict category is not produced on this path. -/
theorem claim_C4_amended (stRead stCas : DBState) (fr t : String) (id : Int)
    (now : Nat) (g : GoalRow) (hg : getGoal stRead id = some g) (hst : g.status = fr)
    (hcas : (updateGoalStatus stCas id fr t now).1 = Except.error DBErr.noRows) :
    transitionHandler fr t stRead stCas id now
        = (errResp 500 "failed to update status", stCas)
    ∧ (fr = "queued" → t = "running" → hasUnmetDependencies stRead id = false →
        handleStart stRead stCas id now
          = (errResp 500 "failed to update status", stCas)) := by
  have hpair : updateGoalStatus stCas id fr t now = (Except.error DBErr.noRows, stCas) := by
    rcases updateGoalStatus_spec stCas id fr t now with ⟨heq, _, _⟩ | ⟨heq, _⟩ | ⟨heq, _, _⟩
    · rw [heq] at hcas
      simp at hcas
    · exact heq
    · rw [heq] at hcas
      simp at hcas
  constructor
  · unfold transitionHandler
    rw [hg]
    dsimp only
    rw [if_neg (by rw [hst]; simp), hpair]
  · intro hfr ht hdep
    subst hfr
    subst ht
    unfold handleStart
    rw [hg]
    dsimp only
    rw [if_neg (by rw [hst]; simp), if_neg (by rw [hdep]; simp), hpair]

theorem claim_C4_witness :
    getGoal stQueued1 1 = some gQueued
    ∧ (updateGoalStatus stCancelled1 1 "queued" "running" 0).1 = Except.error DBErr.noRows
    ∧ transitionHandler "queued" "running" stQueued1 stCancelled1 1 0
        = (errResp 500 "failed to update status", stCancelled1) :=
  ⟨by decide, by decide,
    (claim_C4_amended stQueued1 stCancelled1 "queued" "running" 1 0 gQueued
      (by decide) (by decide) (by decide)).1⟩

/-- Claim C1 (code bug, evaluated at the failing input): for a goal whose
current status is running and which has no unmet dependency, the pair
(running, done) is an edge of the declared graph and running is not
terminal, so the claim requires the transition to done to succeed; yet no
registered endpoint reports success while targeting done — the code
registers a /submitted route in its place, whose write is rejected by the
goals CHECK constraint and surfaces as a 500. -/
theorem claim_C1_running_done_unreachable :
    canTransition "running" "done" = true
    ∧ isTerminal "running" = false
    ∧ hasUnmetDependencies stRunning1 1 = false
    ∧ getGoal stRunning1 1 = some gRunning
    ∧ transitionSucceedsTo stRunning1 1 "done" 0 = false
    ∧ (runEndpoint Endpoint.submitted stRunning1 1 0).1.code = 500
    ∧ statusCheck "submitted" = false := by
  decide

theorem sum_pos_iff {l : List Nat} : 0 < l.sum ↔ ∃ x ∈ l, 0 < x := by
  induction l with
  | nil => simp
  | cons a tl ih =>
    rw [List.sum_cons]
    constructor
    · intro h
      by_cases ha : 0 < a
      · exact ⟨a, by simp, ha⟩
      · have hs : 0 < tl.sum := by omega
        rcases ih.mp hs with ⟨x, hx, hpx⟩
        exact ⟨x, by simp [hx], hpx⟩
    · rintro ⟨x, hx, hpx⟩
      rcases List.mem_cons.mp hx with rfl | hx
      · omega
      · have := ih.mpr ⟨x, hx, hpx⟩
        omega

/-- Claim C5: `hasUnmetDependencies` returns true exactly when some
dependency edge of the goal has a prerequisite goal whose current persisted
status is not done; in particular it is false for a goal with no edges, and
true whenever any prerequisite is in any non-done state. -/
theorem claim_C5 (st : DBState) (goalID : Int) :
    hasUnmetDependencies st goalID = true ↔
      ∃ d ∈ st.deps, d.goalId = goalID ∧
        ∃ g ∈ st.goals, g.id = d.dependsOnId ∧ g.status ≠ "done" := by
  unfold hasUnmetDependencies unmetCount
  rw [decide_eq_true_iff, sum_pos_iff]
  constructor
  · rintro ⟨x, hx, hpx⟩
    rcases List.mem_map.mp hx with ⟨d, hdf, rfl⟩
    obtain ⟨hdmem, hdp⟩ := List.mem_filter.mp hdf
    rw [← List.countP_eq_length_filter, List.countP_pos_iff] at hpx
    rcases hpx with ⟨g, hgmem, hq⟩
    rw [Bool.and_eq_true, beq_iff_eq, bne_iff_ne] at hq
    exact ⟨d, hdmem, by simpa using hdp, g, hgmem, hq.1, hq.2⟩
  · rintro ⟨d, hdmem, hdg, g, hgmem, hgid, hgst⟩
    refine ⟨(st.goals.filter (fun g => g.id == d.dependsOnId && g.status != "done")).length,
      List.mem_map.mpr ⟨d, List.mem_filter.mpr ⟨hdmem, by simpa using hdg⟩, rfl⟩, ?_⟩
    rw [← List.countP_eq_length_filter, List.countP_pos_iff]
    exact ⟨g, hgmem, by simp [hgid, hgst]⟩

/-- Claim C7 counterexample: inserting the dependency edge (1, 2) when it
is already present fails with HTTP 500 ("failed to add dependency"), not
with the Conflict category (409), refuting the claim as stated; the edge is
nevertheless not duplicated (the state is unchanged). -/
theorem claim_C7_counterexample :
    stDup.deps.any (fun d => d.goalId == 1 && d.dependsOnId == 2) = true
    ∧ (handleAddDependency stDup 1 2).1.code = 500
    ∧ (handleAddDependency stDup 1 2).1.code ≠ 409
    ∧ (handleAddDependency stDup 1 2).2 = stDup := by
  decide

/-- Claim C7 (amended): inserting a dependency edge that already exists
fails cleanly with the internal-error category (HTTP 500) — it never
silently succeeds and never creates a second copy of the edge — while
deleting an edge that does not exist fails with NotFound (404); in both
cases the database is unchanged. -/
theorem claim_C7_amended (st : DBState) (id depId : Int) (g g2 : GoalRow)
    (hg : getGoal st id = some g)
    (hallow : dependencyAllowedStatuses.contains g.status = true)
    (h0 : depId ≠ 0) (hself : depId ≠ id)
    (hdep : getGoal st depId = some g2) :
    (st.deps.any (fun d => d.goalId == id && d.dependsOnId == depId) = true →
       handleAddDependency st id depId = (errResp 500 "failed to add dependency", st))
    ∧ (st.deps.any (fun d => d.goalId == id && d.dependsOnId == depId) = false →
       handleRemoveDependency st id depId = (errResp 404 "dependency not found", st)) := by
  constructor
  · intro hdup
    unfold handleAddDependency
    rw [hg]
    dsimp only
    rw [if_neg (by rw [hallow]; simp)]
    rw [if_neg (by simpa using h0), if_neg (by simpa using hself), hdep]
    dsimp only
    have hadd : addDependency st id depId = (Except.error DBErr.constraintFailed, st) := by
      unfold addDependency
      rw [if_pos hdup]
    rw [hadd]
  · intro hnone
    unfold handleRemoveDependency
    rw [hg]
    dsimp only
    rw [if_neg (by rw [hallow]; simp)]
    have hfil : st.deps.filter (fun d => !(d.goalId == id && d.dependsOnId == depId))
        = st.deps := by
      rw [List.filter_eq_self]
      intro d hd
      rw [List.any_eq_false] at hnone
      rw [Bool.not_eq_true']
      exact Bool.eq_false_iff.mpr (hnone d hd)
    have hrem : removeDependency st id depId = (Except.error DBErr.noRows, st) := by
      simp only [removeDependency, hfil]
      rw [if_pos (by simp)]
    rw [hrem]

theorem claim_C7_witness :
    getGoal stDup 1 = some gDraft
    ∧ (stDup.deps.any (fun d => d.goalId == 1 && d.dependsOnId == 2) = true →
        handleAddDependency stDup 1 2 = (errResp 500 "failed to add dependency", stDup)) :=
  ⟨by decide,
    (claim_C7_amended stDup 1 2 gDraft gDraft2 (by decide) (by decide)
      (by decide) (by decide) (by decide)).1⟩

/-- Claim C9 counterexample: listing the comments of a goal identity that
has no goal does not fail with NotFound — it succeeds with HTTP 200 and an
empty item list, refuting the claim as stated for the list operation. -/
theorem claim_C9_counterexample :
    getGoal stEmpty 1 = none
    ∧ (handleListComments stEmpty 1).1.code = 200
    ∧ (handleListComments stEmpty 1).1.ok = true
    ∧ (handleListComments stEmpty 1).1.code ≠ 404
    ∧ (handleListComments stEmpty 1).2 = [] := by
  decide

/-- Claim C9 (amended): adding a comment requires the referenced goal to
exist and fails with NotFound (404) otherwise, leaving the database
unchanged; listing comments performs no existence check and, for a goal
identity that has no goal (and a comment table respecting the foreign key),
returns an empty success result (HTTP 200) instead of NotFound. -/
theorem claim_C9_amended (st : DBState) (id : Int) (body : String) (now : Nat)
    (hg : getGoal st id = none)
    (hwf : ∀ c ∈ st.comments, ∃ g ∈ st.goals, g.id = c.goalId) :
    handleCreateComment st id body now = (errResp 404 "goal not found", st)
    ∧ handleListComments st id = (okResp 200, []) := by
  constructor
  · unfold handleCreateComment
    rw [hg]
  · unfold handleListComments listComments
    have hfil : st.comments.filter (fun c => c.goalId == id) = [] := by
      rw [List.filter_eq_nil_iff]
      intro c hc hcp
      rcases hwf c hc with ⟨g, hgmem, hgid⟩
      have hcg : c.goalId = id := by simpa using hcp
      exact getGoal_none hg g hgmem (by rw [hgid, hcg])
    rw [hfil]

theorem claim_C9_witness :
    getGoal stEmpty 5 = none
    ∧ handleCreateComment stEmpty 5 "hello" 0 = (errResp 404 "goal not found", stEmpty) :=
  ⟨by decide,
    (claim_C9_amended stEmpty 5 "hello" 0 (by decide)
      (by intro c hc; simp [stEmpty] at hc)).1⟩

/-! ## Pagination -/

theorem listGoals_paginated (st : DBState) (status org repo : String)
    (limit offset : Nat) (hl : 0 < limit) :
    (listGoals st status org repo limit offset).2
        = (st.goals.filter (goalFilter status org repo)).length
    ∧ (listGoals st status org repo limit offset).1.length
        = min limit ((st.goals.filter (goalFilter status org repo)).length - offset)
    ∧ ((listGoals st status org repo limit offset).1.map GoalSummary.id).Sorted
        (fun a b => b ≤ a) := by
  simp only [listGoals]
  rw [if_pos hl, if_pos hl]
  refine ⟨rfl, ?_, ?_⟩
  · rw [List.length_map, List.length_take, List.length_drop, List.length_insertionSort]
  · have hs : (List.insertionSort byIdDesc
        (st.goals.filter (goalFilter status org repo))).Sorted byIdDesc :=
      List.sorted_insertionSort byIdDesc _
    have hs2 : (((List.insertionSort byIdDesc
        (st.goals.filter (goalFilter status org repo))).drop offset).take limit).Sorted
          byIdDesc :=
      hs.sublist ((List.take_sublist _ _).trans (List.drop_sublist _ _))
    rw [List.map_map]
    exact List.pairwise_map.mpr hs2

/-- The paginated listing contract of `handleListGoals`, stated for the
effective page size `min perPage 100` produced by the clamp. -/
theorem handleListGoals_spec (st : DBState) (status org repo : String)
    (page perPage : Nat) (hp : 0 < page) (hpp : 0 < perPage) :
    (handleListGoals st status org repo page (some perPage)).code = 200
    ∧ (handleListGoals st status org repo page (some perPage)).ok = true
    ∧ (handleListGoals st status org repo page (some perPage)).perPage = min perPage 100
    ∧ (handleListGoals st status org repo page (some perPage)).total
        = (st.goals.filter (goalFilter status org repo)).length
    ∧ (handleListGoals st status org repo page (some perPage)).items.length
        = min (min perPage 100)
            ((st.goals.filter (goalFilter status org repo)).length
              - (page - 1) * min perPage 100)
    ∧ ((handleListGoals st status org repo page (some perPage)).items.map
        GoalSummary.id).Sorted (fun a b => b ≤ a) := by
  have hS : (if perPage > 100 then 100 else perPage) = min perPage 100 := by
    rcases le_or_lt perPage 100 with h | h
    · rw [if_neg (by omega), Nat.min_eq_left h]
    · rw [if_pos h, Nat.min_eq_right (by omega)]
  have hpos : 0 < min perPage 100 := by omega
  simp only [handleListGoals]
  rw [if_neg (by simp; omega)]
  rw [if_neg (by simp; omega)]
  rw [hS]
  obtain ⟨ht, hlen, hsort⟩ := listGoals_paginated st status org repo
    (min perPage 100) ((page - 1) * min perPage 100) hpos
  exact ⟨rfl, rfl, rfl, ht, hlen, hsort⟩

/-- Claim C8 counterexample: with 101 matching goals, requesting page 1
with page size 101 returns 100 items (the clamp caps per_page at 100),
while the claimed formula min(S, total - (P-1)*S) demands 101, refuting the
claim as stated for requested sizes above 100. -/
theorem claim_C8_counterexample :
    (handleListGoals stMany "" "" "" 1 (some 101)).total = 101
    ∧ (handleListGoals stMany "" "" "" 1 (some 101)).items.length = 100
    ∧ (handleListGoals stMany "" "" "" 1 (some 101)).items.length
        ≠ min 101 ((handleListGoals stMany "" "" "" 1 (some 101)).total
            - (1 - 1) * 101) := by
  have h := handleListGoals_spec stMany "" "" "" 1 101 (by omega) (by omega)
  have hflt : (stMany.goals.filter (goalFilter "" "" "")).length = 101 := by
    have hself : stMany.goals.filter (goalFilter "" "" "") = stMany.goals := by
      rw [List.filter_eq_self]
      intro g _
      rfl
    rw [hself]
    simp [stMany, stEmpty]
  rcases h with ⟨_, _, _, htot, hlen, _⟩
  rw [hflt] at htot hlen
  norm_num at hlen
  rw [htot, hlen]
  norm_num

/-- Claim C8 (amended): for the paginated list operation, with the
requested page size clamped to the documented maximum of 100 (so the
effective size is S = min(per_page, 100)), requesting page P returns
exactly min(S, total - (P-1)*S) items (zero when the page is past the
end), the items are ordered by descending goal identity, and the reported
total equals the count of all goals matching the same status/org/repo
filter ignoring pagination. -/
theorem claim_C8_amended (st : DBState) (status org repo : String)
    (page perPage : Nat) (hp : 0 < page) (hpp : 0 < perPage) :
    (handleListGoals st status org repo page (some perPage)).code = 200
    ∧ (handleListGoals st status org repo page (some perPage)).ok = true
    ∧ (handleListGoals st status org repo page (some perPage)).perPage = min perPage 100
    ∧ (handleListGoals st status org repo page (some perPage)).total
        = (st.goals.filter (goalFilter status org repo)).length
    ∧ (handleListGoals st status org repo page (some perPage)).items.length
        = min (min perPage 100)
            ((st.goals.filter (goalFilter status org repo)).length
              - (page - 1) * min perPage 100)
    ∧ ((handleListGoals st status org repo page (some perPage)).items.map
        GoalSummary.id).Sorted (fun a b => b ≤ a) :=
  handleListGoals_spec st status org repo page perPage hp hpp

theorem claim_C8_witness :
    (0 : Nat) < 2
    ∧ (handleListGoals stThree "" "" "" 2 (some 2)).items.length
        = min (min 2 100)
            ((stThree.goals.filter (goalFilter "" "" "")).length - (2 - 1) * min 2 100) :=
  ⟨by omega,
    (claim_C8_amended stThree "" "" "" 2 2 (by omega) (by omega)).2.2.2.2.1⟩

end RalphPlans
